import Mathlib

/-!
Verification of the ticket reconciliation and SLA core of the
outlook-exporter repository, as a shallow embedding in Lean 4.

Embedded modules:
* `core/sla.py`  — status model (`normalize_status_code`, `status_code_to_label`,
  `status_text_to_code`, `derive_base_status`), `business_hours_between`,
  the per-ticket body of `recalc_open`, `mark_reminder_sent`.
* `core/db.py`   — the `tickets` and `events` tables, `upsert_ticket`
  (SQLite `INSERT .. ON CONFLICT(conv_id, thread_key) DO UPDATE`, with
  SQLite NULL semantics for the unique pair), `log_event`
  (`INSERT OR IGNORE`, `UNIQUE(item_entry_id)`).
* `core/excel.py` — the per-row body of `sync_from_excel`.
* `core/utils.py` — `_normalize_sender_filter`, `passes_sender_filter`.

Conventions: SQL TEXT columns holding ISO timestamps are modelled by a
`PyDateTime` value (calendar day as the proleptic-Gregorian ordinal used by
Python's `date.toordinal`, plus seconds within the day as a rational, so
microsecond granularity is representable); `datetime.fromisoformat` /
`isoformat` round-trips are order-preserving, so comparisons on the TEXT
column coincide with comparisons of the modelled values.  SQLite INTEGER
columns are `Int`, REAL is `Rat`, nullable columns are `Option`.
-/

/-- Python `str.lower` restricted to the alphabet appearing in this code
base: ASCII letters and the Russian alphabet (А-Я to а-я, Ё to ё).  All
other characters (digits, punctuation, whitespace) are fixed points, as in
Python. -/
def pyLowerChar (c : Char) : Char :=
  if 'A' ≤ c ∧ c ≤ 'Z' then Char.ofNat (c.toNat + 32)
  else if 0x410 ≤ c.toNat ∧ c.toNat ≤ 0x42F then Char.ofNat (c.toNat + 0x20)
  else if c.toNat = 0x401 then Char.ofNat 0x451
  else c

/-- Python `str.lower` on a string (character-wise, see `pyLowerChar`). -/
def pyLowerStr (s : String) : String :=
  (s.data.map pyLowerChar).asString

/-- Python `str.strip`: drop leading and trailing whitespace (the
whitespace classes agree on the inputs in play). -/
def pyStrip (s : String) : String :=
  (((s.data.dropWhile Char.isWhitespace).reverse.dropWhile
      Char.isWhitespace).reverse).asString

/-- Python `dict.get` over an association list (dict keys are unique in the
literals below, so first-match lookup is the dict lookup). -/
def listGet (m : List (String × String)) (k : String) : Option String :=
  (m.find? (fun p => p.1 == k)).map (fun p => p.2)

/-! ## Status model (`core/sla.py`) -/

def STATUS_NEW : String := "new"
def STATUS_ASSIGNED : String := "assigned"
def STATUS_RESPONDED : String := "responded"
def STATUS_RESOLVED : String := "resolved"
def STATUS_WAITING_CUSTOMER : String := "waiting_customer"
def STATUS_TABLE : String := "table"
def STATUS_OTIP : String := "otip"
def STATUS_OVERDUE : String := "overdue"
def STATUS_NOT_INTERESTING : String := "not_interesting"

/-- Historical alias kept for migration/compatibility. -/
def STATUS_IN_TABLE : String := "in_table"

def STATUS_ALIASES : List (String × String) :=
  [(STATUS_IN_TABLE, STATUS_TABLE)]

/-- `STATUS_MODEL`: canonical codes with their Russian display labels. -/
def STATUS_MODEL : List (String × String) :=
  [(STATUS_NEW, "Новое"),
   (STATUS_ASSIGNED, "В работе"),
   (STATUS_RESPONDED, "Дан ответ"),
   (STATUS_RESOLVED, "Закрыто"),
   (STATUS_WAITING_CUSTOMER, "Ждем клиента"),
   (STATUS_TABLE, "Требует данных/таблица"),
   (STATUS_OTIP, "OTIP"),
   (STATUS_OVERDUE, "Просрочка SLA"),
   (STATUS_NOT_INTERESTING, "Неинтересно/спам")]

/-- `STATUS_LABELS_RU = dict(STATUS_MODEL)`. -/
def STATUS_LABELS_RU : List (String × String) :=
  STATUS_MODEL

/-- `STATUS_TEXT_MAP`: normalized lower-case inputs mapped to canonical
codes (RU + EN + legacy), exactly the dict literal in `core/sla.py`. -/
def STATUS_TEXT_MAP : List (String × String) :=
  [("новое", STATUS_NEW),
   ("new", STATUS_NEW),
   ("vhod", STATUS_NEW),
   ("вход", STATUS_NEW),
   ("входящее", STATUS_NEW),
   ("in_table", STATUS_TABLE),
   ("table", STATUS_TABLE),
   ("таблица", STATUS_TABLE),
   ("требует таблицы", STATUS_TABLE),
   ("требует данных", STATUS_TABLE),
   ("требует данных/таблица", STATUS_TABLE),
   ("назначено", STATUS_ASSIGNED),
   ("в работе", STATUS_ASSIGNED),
   ("работа", STATUS_ASSIGNED),
   ("переслано", STATUS_ASSIGNED),
   ("forwarded", STATUS_ASSIGNED),
   ("forward", STATUS_ASSIGNED),
   ("assigned", STATUS_ASSIGNED),
   ("naznacheno", STATUS_ASSIGNED),
   ("ответ", STATUS_RESPONDED),
   ("дан ответ", STATUS_RESPONDED),
   ("responded", STATUS_RESPONDED),
   ("ok", STATUS_RESPONDED),
   ("ок", STATUS_RESPONDED),
   ("закрыто", STATUS_RESOLVED),
   ("закрыть", STATUS_RESOLVED),
   ("resolved", STATUS_RESOLVED),
   ("done", STATUS_RESOLVED),
   ("close", STATUS_RESOLVED),
   ("closed", STATUS_RESOLVED),
   ("неинтересно", STATUS_NOT_INTERESTING),
   ("неинтересно/спам", STATUS_NOT_INTERESTING),
   ("не наш", STATUS_NOT_INTERESTING),
   ("спам", STATUS_NOT_INTERESTING),
   ("not_interesting", STATUS_NOT_INTERESTING),
   ("просрочка", STATUS_OVERDUE),
   ("просрочка sla", STATUS_OVERDUE),
   ("overdue", STATUS_OVERDUE),
   ("waiting_customer", STATUS_WAITING_CUSTOMER),
   ("waiting", STATUS_WAITING_CUSTOMER),
   ("waiting customer", STATUS_WAITING_CUSTOMER),
   ("need more time", STATUS_WAITING_CUSTOMER),
   ("more time", STATUS_WAITING_CUSTOMER),
   ("нужно время", STATUS_WAITING_CUSTOMER),
   ("ждём клиента", STATUS_WAITING_CUSTOMER),
   ("ждем клиента", STATUS_WAITING_CUSTOMER),
   ("ожидаем клиента", STATUS_WAITING_CUSTOMER),
   ("ждём", STATUS_WAITING_CUSTOMER),
   ("ждем", STATUS_WAITING_CUSTOMER),
   ("ждём ответ", STATUS_WAITING_CUSTOMER),
   ("ждем ответ", STATUS_WAITING_CUSTOMER),
   ("otip", STATUS_OTIP),
   ("отип", STATUS_OTIP)]

/-- `normalize_status_code` for a non-None argument: strip+lower, then the
alias table.  (In the source the default of the alias lookup is
`code_l if code_l in STATUS_LABELS_RU else code_l`, i.e. `code_l` in both
branches.) -/
def normalize_status_code (code : String) : String :=
  let code_l := pyLowerStr (pyStrip code)
  (listGet STATUS_ALIASES code_l).getD code_l

/-- `status_code_to_label`: label of the normalized code, defaulting to
`code or ""`. -/
def status_code_to_label (code : String) : String :=
  let canonical := normalize_status_code code
  (listGet STATUS_LABELS_RU canonical).getD (if code = "" then "" else code)

/-- Characters kept by `re.sub(r"[^a-zа-яё 0-9_]+", "", t,
flags=re.IGNORECASE)`: ASCII letters (both cases, because of IGNORECASE),
Russian letters (both cases), space, digits, underscore. -/
def statusTextKeepChar (c : Char) : Bool :=
  ('a' ≤ c ∧ c ≤ 'z') || ('A' ≤ c ∧ c ≤ 'Z') ||
  (0x430 ≤ c.toNat ∧ c.toNat ≤ 0x44F) || (0x410 ≤ c.toNat ∧ c.toNat ≤ 0x42F) ||
  c.toNat = 0x451 || c.toNat = 0x401 ||
  c = ' ' || ('0' ≤ c ∧ c ≤ '9') || c = '_'

/-- `status_text_to_code`: resolve free text to a canonical status code, or
`none` ("no match").  Python truthiness of the looked-up string is modelled
by comparing with `""` (all map values are non-empty). -/
def status_text_to_code (text : String) : Option String :=
  if text = "" then none
  else
    let t := pyLowerStr (pyStrip text)
    let code := (listGet STATUS_TEXT_MAP t).getD ""
    if code ≠ "" then some code
    else if (listGet STATUS_LABELS_RU t).isSome then some t
    else if (listGet STATUS_ALIASES t).isSome then listGet STATUS_ALIASES t
    else
      let t_clean := pyStrip (t.data.filter statusTextKeepChar).asString
      let r1 := (listGet STATUS_TEXT_MAP t_clean).getD ""
      if r1 ≠ "" then some r1
      else
        listGet STATUS_TEXT_MAP
          (t_clean.data.map (fun c => if c = ' ' then '_' else c)).asString

/-- `derive_base_status(has_forward, has_reply, requires_table,
is_uninteresting)`: fixed priority order; the fall-through default is
`assigned` (deliberate prototype rule, not `new`). -/
def derive_base_status (has_forward has_reply requires_table is_uninteresting : Bool) :
    String :=
  if is_uninteresting then STATUS_NOT_INTERESTING
  else if requires_table then STATUS_TABLE
  else if has_reply then STATUS_RESPONDED
  else if has_forward then STATUS_ASSIGNED
  else STATUS_ASSIGNED

/-- The fixed closed status set: the codes of `STATUS_MODEL`. -/
def STATUS_CODES : List String :=
  STATUS_MODEL.map (fun p => p.1)

/-- C7: for every status code in the fixed status set, translating the code
to its display label and back (`status_text_to_code` after
`status_code_to_label`) yields the same code: the label round-trip is the
identity on canonical status codes. -/
theorem c7_status_label_roundtrip :
    STATUS_CODES.all
      (fun c => status_text_to_code (status_code_to_label c) == some c) = true := by
  decide

/-- C8: `derive_base_status` applies its flags in the fixed priority order
uninteresting, then requires_table, then has_reply (responded), then
has_forward (assigned); and the all-False input yields `assigned`, not
`new`. -/
theorem c8_derive_base_status_priority :
    (∀ f r t : Bool, derive_base_status f r t true = STATUS_NOT_INTERESTING) ∧
    (∀ f r : Bool, derive_base_status f r true false = STATUS_TABLE) ∧
    (∀ f : Bool, derive_base_status f true false false = STATUS_RESPONDED) ∧
    derive_base_status true false false false = STATUS_ASSIGNED ∧
    derive_base_status false false false false = STATUS_ASSIGNED ∧
    derive_base_status false false false false ≠ STATUS_NEW := by
  refine ⟨?_, ?_, ?_, by decide, by decide, by decide⟩ <;> decide

/-! ## Datetimes and `business_hours_between` (`core/sla.py`) -/

/-- A Python naive `datetime`: the calendar date as its proleptic-Gregorian
ordinal (`date.toordinal`, ordinal 1 = 0001-01-01, a Monday) and the time
of day as seconds since midnight (rational, so microseconds are exact). -/
structure PyDateTime where
  day : Int
  sec : Rat
deriving DecidableEq

/-- Total seconds on the time line; `datetime` comparison and subtraction
coincide with comparison and subtraction of this value. -/
def PyDateTime.toSec (d : PyDateTime) : Rat :=
  (d.day : Rat) * 86400 + d.sec

/-- `date.weekday() >= 5` (Saturday/Sunday) for the date with ordinal `d`:
`weekday = (d + 6) % 7` maps ordinal 1 (a Monday) to 0. -/
def isWeekendDay (d : Int) : Bool :=
  5 ≤ (d + 6) % 7

/-- One iteration body plus the day-by-day walk of
`business_hours_between`; `current` starts at `start` and is reset to the
next midnight after each day.  The fuel is an upper bound on the number of
iterations (the walk itself stops through the `current.day ≤ stop.day`
guard, as in the source's `while current.date() <= end_date`). -/
def bhAux (stop : PyDateTime) (start_hour end_hour : Int) (holidays : List Int) :
    Nat → PyDateTime → Rat
  | 0, _ => 0
  | fuel + 1, current =>
    if current.day ≤ stop.day then
      let contrib :=
        if isWeekendDay current.day = false ∧ holidays.contains current.day = false then
          let sh := max 0 (min 23 start_hour)
          let day_end : Rat :=
            (current.day : Rat) * 86400 +
              (if 24 ≤ end_hour then (23 * 3600 + 59 * 60 + 59 : Rat)
               else ((max sh end_hour : Int) : Rat) * 3600)
          let day_start : Rat := (current.day : Rat) * 86400 + (sh : Rat) * 3600
          let interval_start := max current.toSec day_start
          let interval_end := min stop.toSec day_end
          if interval_start < interval_end then (interval_end - interval_start) / 3600
          else 0
        else 0
      contrib + bhAux stop start_hour end_hour holidays fuel ⟨current.day + 1, 0⟩
    else 0

/-- `business_hours_between(start, end, start_hour, end_hour, holidays)`:
working hours Mon-Fri within `[start_hour, end_hour)`, skipping weekends
and the holiday set (holiday dates are compared by calendar day, since
`date.isoformat` is injective). -/
def business_hours_between (start stop : PyDateTime) (start_hour end_hour : Int)
    (holidays : List Int) : Rat :=
  if stop.toSec ≤ start.toSec then 0
  else
    max (bhAux stop start_hour end_hour holidays
          ((stop.day - start.day).toNat + 1) start) 0

/-- Closed form of `business_hours_between` for an interval inside the
business window of one working day (shared helper; see the C6 theorem). -/
theorem bh_single_day_formula (d : Int) (ssec esec : Rat) (sh eh : Int)
    (hol : List Int)
    (hsh0 : 0 ≤ sh) (hshe : sh < eh) (heh : eh ≤ 24)
    (hwd : isWeekendDay d = false) (hhol : hol.contains d = false)
    (hin1 : (sh : Rat) * 3600 ≤ ssec)
    (hin2 : esec ≤ min ((eh : Rat) * 3600) (23 * 3600 + 59 * 60 + 59)) :
    business_hours_between ⟨d, ssec⟩ ⟨d, esec⟩ sh eh hol
      = max ((min esec ((eh : Rat) * 3600) - max ssec ((sh : Rat) * 3600)) / 3600) 0 := by
  have hsh23 : sh ≤ 23 := by omega
  have hclamp : max 0 (min 23 sh) = sh := by omega
  have hmaxe : max (max 0 (min 23 sh)) eh = eh := by omega
  have hde : esec ≤ (eh : Rat) * 3600 := le_trans hin2 (min_le_left _ _)
  have hdc : esec ≤ (23 * 3600 + 59 * 60 + 59 : Rat) := le_trans hin2 (min_le_right _ _)
  rw [min_eq_left hde, max_eq_left hin1]
  by_cases hse : esec ≤ ssec
  · have h0 : PyDateTime.toSec ⟨d, esec⟩ ≤ PyDateTime.toSec ⟨d, ssec⟩ := by
      simp only [PyDateTime.toSec]; linarith
    rw [business_hours_between, if_pos h0]
    have hneg : (esec - ssec) / 3600 ≤ 0 := by
      apply div_nonpos_of_nonpos_of_nonneg <;> linarith
    exact (max_eq_right hneg).symm
  · push_neg at hse
    have h0 : ¬ PyDateTime.toSec ⟨d, esec⟩ ≤ PyDateTime.toSec ⟨d, ssec⟩ := by
      simp only [PyDateTime.toSec]; push_neg; linarith
    rw [business_hours_between, if_neg h0]
    have hfuel : (d - d).toNat + 1 = 1 := by omega
    rw [hfuel]
    have hguard : d ≤ d := le_refl d
    have hiend : min (PyDateTime.toSec ⟨d, esec⟩)
        ((d : Rat) * 86400 + (if 24 ≤ eh then (23 * 3600 + 59 * 60 + 59 : Rat)
          else ((max (max 0 (min 23 sh)) eh : Int) : Rat) * 3600))
        = (d : Rat) * 86400 + esec := by
      simp only [PyDateTime.toSec]
      split_ifs with h24
      · rw [min_eq_left]; linarith
      · rw [hmaxe, min_eq_left]
        have : (eh : Rat) * 3600 ≤ 23 * 3600 := by
          have : (eh : Rat) ≤ 23 := by exact_mod_cast (by omega : eh ≤ 23)
          linarith
        linarith
    have histart : max (PyDateTime.toSec ⟨d, ssec⟩)
        ((d : Rat) * 86400 + ((max 0 (min 23 sh) : Int) : Rat) * 3600)
        = (d : Rat) * 86400 + ssec := by
      simp only [PyDateTime.toSec, hclamp]
      rw [max_eq_left]; linarith
    simp only [bhAux, if_pos hguard, hwd, hhol]
    simp only [hiend, histart]
    have hlt : (d : Rat) * 86400 + ssec < (d : Rat) * 86400 + esec := by linarith
    rw [if_pos ⟨trivial, trivial⟩, if_pos hlt]
    have : ((d : Rat) * 86400 + esec - ((d : Rat) * 86400 + ssec)) = esec - ssec := by ring
    rw [this]
    norm_num

/-- C6: for every valid pair (start_hour, end_hour) (0 ≤ start_hour <
end_hour ≤ 24) and every interval lying entirely within the business-hour
window of a single non-weekend, non-holiday calendar day (the day's window
ends at hour `end_hour`, capped at the day's last second 23:59:59),
`business_hours_between` equals min(end, day-end-hour) minus
max(start, day-start-hour) in hours, clamped to at least 0. -/
theorem c6_business_hours_single_day (d : Int) (ssec esec : Rat) (sh eh : Int)
    (hol : List Int)
    (hsh0 : 0 ≤ sh) (hshe : sh < eh) (heh : eh ≤ 24)
    (hwd : isWeekendDay d = false) (hhol : hol.contains d = false)
    (hin1 : (sh : Rat) * 3600 ≤ ssec)
    (hin2 : esec ≤ min ((eh : Rat) * 3600) (23 * 3600 + 59 * 60 + 59)) :
    business_hours_between ⟨d, ssec⟩ ⟨d, esec⟩ sh eh hol
      = max ((min esec ((eh : Rat) * 3600) - max ssec ((sh : Rat) * 3600)) / 3600) 0 :=
  bh_single_day_formula d ssec esec sh eh hol hsh0 hshe heh hwd hhol hin1 hin2

/-- Witness for C6: a Monday (ordinal day 1), business hours 10-19, the
interval 10:00-12:00, no holidays; the calculator yields the clamped
min/max formula (which evaluates to 2 hours). -/
theorem c6_business_hours_single_day_witness :
    business_hours_between ⟨1, 36000⟩ ⟨1, 43200⟩ 10 19 []
      = max ((min (43200 : Rat) (((19 : Int) : Rat) * 3600)
              - max (36000 : Rat) (((10 : Int) : Rat) * 3600)) / 3600) 0 :=
  c6_business_hours_single_day 1 36000 43200 10 19 []
    (by norm_num) (by norm_num) (by norm_num) (by decide) (by decide)
    (by norm_num) (by norm_num)

/-! ## Ticket store (`core/db.py`) -/

/-- A stored row of the `tickets` table (schema in `ensure_schema`).
INTEGER columns are `Int` (the boolean flags `overdue`, `not_interesting`,
`is_repeat` are stored as 0/1), REAL is `Rat`, nullable TEXT is
`Option String`, TEXT timestamps are modelled as `PyDateTime`. -/
structure Ticket where
  id : Int
  stable_id : Option String
  conv_id : Option String
  thread_key : String
  entry_id : Option String
  first_received_utc : PyDateTime
  sender : String
  subject : String
  body : Option String
  first_forward_utc : Option PyDateTime
  first_forward_to : Option String
  first_reply_utc : Option PyDateTime
  first_reply_body : Option String
  responsible : Option String
  status : String
  last_status_utc : PyDateTime
  days_without_update : Int
  overdue : Int
  not_interesting : Int
  customer_email : Option String
  is_repeat : Int
  repeat_hint : Option String
  recommended_answer : Option String
  match_score : Option Rat
  topic : Option String
  last_reminder_utc : Option PyDateTime
  priority : Option String
  last_updated_at : Option PyDateTime
  last_updated_by : Option String
  data_source : Option String
  comment : Option String
  row_version : Int
deriving DecidableEq

/-- The `TicketRecord` dataclass handed to `upsert_ticket` (`id` is not in
the inserted column list; the boolean flags are converted to 0/1 by the
payload preparation in `upsert_ticket`). -/
structure TicketRecord where
  id : Option Int
  conv_id : Option String
  thread_key : String
  entry_id : Option String
  first_received_utc : PyDateTime
  sender : String
  subject : String
  body : Option String
  first_forward_utc : Option PyDateTime
  first_forward_to : Option String
  first_reply_utc : Option PyDateTime
  first_reply_body : Option String
  responsible : Option String
  status : String
  last_status_utc : PyDateTime
  days_without_update : Int
  overdue : Bool
  not_interesting : Bool
  customer_email : Option String
  is_repeat : Bool
  repeat_hint : Option String
  recommended_answer : Option String
  match_score : Option Rat
  topic : Option String
  last_reminder_utc : Option PyDateTime
  priority : Option String
  stable_id : Option String
  last_updated_at : Option PyDateTime
  last_updated_by : Option String
  data_source : Option String
  comment : Option String
  row_version : Int := 1
deriving DecidableEq

/-- SQLite conflict detection for `UNIQUE(conv_id, thread_key)`: a stored
row conflicts with the inserted record only when both `conv_id` values are
non-NULL and equal and the `thread_key`s are equal — SQLite treats NULLs
in a unique index as distinct from everything, so a NULL `conv_id` never
conflicts. -/
def pairConflict (t : Ticket) (r : TicketRecord) : Bool :=
  match t.conv_id, r.conv_id with
  | some c, some c2 => c == c2 && t.thread_key == r.thread_key
  | _, _ => false

/-- Does the record's `stable_id` violate `UNIQUE(stable_id)` against the
rows of `db` (NULL never violates)? -/
def stableCollides (db : List Ticket) (s : Option String) : Bool :=
  match s with
  | none => false
  | some v => db.any (fun t => t.stable_id == some v)

/-- Same check, ignoring the row at position `i` (the row being updated by
`DO UPDATE` may keep or re-assert its own `stable_id`). -/
def stableCollidesExcluding (db : List Ticket) (i : Nat) (s : Option String) : Bool :=
  match s with
  | none => false
  | some v => db.enum.any (fun p => p.1 != i && p.2.stable_id == some v)

/-- The `DO UPDATE SET` of `upsert_ticket`: every inserted column is set to
its `excluded.` value except `first_received_utc`, and `row_version` is the
rightmost assignment `tickets.row_version + 1` (SQLite keeps only the
rightmost assignment to a column, so the earlier
`row_version=excluded.row_version` is ignored). -/
def upsertUpdateRow (t : Ticket) (r : TicketRecord) : Ticket :=
  { id := t.id
    stable_id := r.stable_id
    conv_id := r.conv_id
    thread_key := r.thread_key
    entry_id := r.entry_id
    first_received_utc := t.first_received_utc
    sender := r.sender
    subject := r.subject
    body := r.body
    first_forward_utc := r.first_forward_utc
    first_forward_to := r.first_forward_to
    first_reply_utc := r.first_reply_utc
    first_reply_body := r.first_reply_body
    responsible := r.responsible
    status := r.status
    last_status_utc := r.last_status_utc
    days_without_update := r.days_without_update
    overdue := if r.overdue then 1 else 0
    not_interesting := if r.not_interesting then 1 else 0
    customer_email := r.customer_email
    is_repeat := if r.is_repeat then 1 else 0
    repeat_hint := r.repeat_hint
    recommended_answer := r.recommended_answer
    match_score := r.match_score
    topic := r.topic
    last_reminder_utc := r.last_reminder_utc
    priority := r.priority
    last_updated_at := r.last_updated_at
    last_updated_by := r.last_updated_by
    data_source := r.data_source
    comment := r.comment
    row_version := t.row_version + 1 }

/-- The fresh row inserted when no `(conv_id, thread_key)` conflict exists:
all columns from the payload, `row_version` from the payload (default 1),
`id` from AUTOINCREMENT (one more than the maximum id in use). -/
def newTicketRow (db : List Ticket) (r : TicketRecord) : Ticket :=
  { id := (db.map Ticket.id).foldr max 0 + 1
    stable_id := r.stable_id
    conv_id := r.conv_id
    thread_key := r.thread_key
    entry_id := r.entry_id
    first_received_utc := r.first_received_utc
    sender := r.sender
    subject := r.subject
    body := r.body
    first_forward_utc := r.first_forward_utc
    first_forward_to := r.first_forward_to
    first_reply_utc := r.first_reply_utc
    first_reply_body := r.first_reply_body
    responsible := r.responsible
    status := r.status
    last_status_utc := r.last_status_utc
    days_without_update := r.days_without_update
    overdue := if r.overdue then 1 else 0
    not_interesting := if r.not_interesting then 1 else 0
    customer_email := r.customer_email
    is_repeat := if r.is_repeat then 1 else 0
    repeat_hint := r.repeat_hint
    recommended_answer := r.recommended_answer
    match_score := r.match_score
    topic := r.topic
    last_reminder_utc := r.last_reminder_utc
    priority := r.priority
    last_updated_at := r.last_updated_at
    last_updated_by := r.last_updated_by
    data_source := r.data_source
    comment := r.comment
    row_version := r.row_version }

/-- `upsert_ticket`: `INSERT INTO tickets .. ON CONFLICT(conv_id,
thread_key) DO UPDATE SET ..`.  `none` models the `sqlite3.IntegrityError`
raised when the statement violates the untargeted `UNIQUE(stable_id)`
constraint against a different row.  (The returned ticket id of the Python
function is not modelled; no claim concerns it.) -/
def upsert_ticket (db : List Ticket) (r : TicketRecord) : Option (List Ticket) :=
  match db.findIdx? (fun t => pairConflict t r) with
  | some i =>
    match db.get? i with
    | some t =>
      let t' := upsertUpdateRow t r
      if stableCollidesExcluding db i t'.stable_id then none
      else some (db.set i t')
    | none => none
  | none =>
    if stableCollides db r.stable_id then none
    else some (db ++ [newTicketRow db r])

/-- A stored row of the `events` table. -/
structure EventRow where
  ticket_id : Int
  event_type : String
  status_before : Option String
  status_after : Option String
  source : String
  event_dt_utc : PyDateTime
  raw_response : Option String
  item_entry_id : Option String
deriving DecidableEq

/-- `log_event`: `INSERT OR IGNORE INTO events ..` with
`UNIQUE(item_entry_id)`.  A non-NULL `item_entry_id` already present makes
the insert a silent no-op; a NULL `item_entry_id` never conflicts (SQLite
NULL semantics), so the row is always appended.  `now` stands for the SQL
`datetime('now')`. -/
def log_event (events : List EventRow) (ticket_id : Int) (event_type : String)
    (status_before status_after : Option String) (source : String)
    (now : PyDateTime) (raw_response : Option String)
    (item_entry_id : Option String) : List EventRow :=
  let e : EventRow :=
    ⟨ticket_id, event_type, status_before, status_after, source, now,
     raw_response, item_entry_id⟩
  match item_entry_id with
  | some _ =>
    if events.any (fun x => x.item_entry_id == item_entry_id) then events
    else events ++ [e]
  | none => events ++ [e]

/-- Number of event rows carrying the given non-null external-message-id. -/
def eventCountWithId (events : List EventRow) (s : String) : Nat :=
  (events.filter (fun x => x.item_entry_id == some s)).length

/-- C1 (amended): for a ticket already present under a (conv_id,
thread_key) pair whose conv_id is non-NULL, upserting a record with that
same pair inserts no new row, updates all mutable columns except the
original receipt timestamp `first_received_utc`, and increments the stored
`row_version` by exactly 1 — also for a payload identical to the stored
row.  (`hfirst`/`hget` say the row at position `i` is the stored row the
unique pair index resolves to; `pairConflict` requires a non-NULL, equal
`conv_id`.  `hstable` rules out the `UNIQUE(stable_id)` integrity error
against a different row.) -/
theorem c1_upsert_existing_pair_updates_in_place
    (db : List Ticket) (r : TicketRecord) (i : Nat) (t : Ticket)
    (hfirst : db.findIdx? (fun u => pairConflict u r) = some i)
    (hget : db.get? i = some t)
    (hstable : stableCollidesExcluding db i r.stable_id = false) :
    upsert_ticket db r = some (db.set i (upsertUpdateRow t r)) ∧
    (db.set i (upsertUpdateRow t r)).length = db.length ∧
    (upsertUpdateRow t r).first_received_utc = t.first_received_utc ∧
    (upsertUpdateRow t r).row_version = t.row_version + 1 ∧
    (upsertUpdateRow t r).id = t.id ∧
    (upsertUpdateRow t r).stable_id = r.stable_id ∧
    (upsertUpdateRow t r).conv_id = r.conv_id ∧
    (upsertUpdateRow t r).thread_key = r.thread_key ∧
    (upsertUpdateRow t r).entry_id = r.entry_id ∧
    (upsertUpdateRow t r).sender = r.sender ∧
    (upsertUpdateRow t r).subject = r.subject ∧
    (upsertUpdateRow t r).body = r.body ∧
    (upsertUpdateRow t r).first_forward_utc = r.first_forward_utc ∧
    (upsertUpdateRow t r).first_forward_to = r.first_forward_to ∧
    (upsertUpdateRow t r).first_reply_utc = r.first_reply_utc ∧
    (upsertUpdateRow t r).first_reply_body = r.first_reply_body ∧
    (upsertUpdateRow t r).responsible = r.responsible ∧
    (upsertUpdateRow t r).status = r.status ∧
    (upsertUpdateRow t r).last_status_utc = r.last_status_utc ∧
    (upsertUpdateRow t r).days_without_update = r.days_without_update ∧
    (upsertUpdateRow t r).overdue = (if r.overdue then 1 else 0) ∧
    (upsertUpdateRow t r).not_interesting = (if r.not_interesting then 1 else 0) ∧
    (upsertUpdateRow t r).customer_email = r.customer_email ∧
    (upsertUpdateRow t r).is_repeat = (if r.is_repeat then 1 else 0) ∧
    (upsertUpdateRow t r).repeat_hint = r.repeat_hint ∧
    (upsertUpdateRow t r).recommended_answer = r.recommended_answer ∧
    (upsertUpdateRow t r).match_score = r.match_score ∧
    (upsertUpdateRow t r).topic = r.topic ∧
    (upsertUpdateRow t r).last_reminder_utc = r.last_reminder_utc ∧
    (upsertUpdateRow t r).priority = r.priority ∧
    (upsertUpdateRow t r).last_updated_at = r.last_updated_at ∧
    (upsertUpdateRow t r).last_updated_by = r.last_updated_by ∧
    (upsertUpdateRow t r).data_source = r.data_source ∧
    (upsertUpdateRow t r).comment = r.comment := by
  refine ⟨?_, by simp, by rfl, by rfl, by rfl, by rfl, by rfl,
    by rfl, by rfl, by rfl, by rfl, by rfl, by rfl, by rfl, by rfl, by rfl,
    by rfl, by rfl, by rfl, by rfl, by rfl, by rfl, by rfl, by rfl, by rfl,
    by rfl, by rfl, by rfl, by rfl, by rfl, by rfl, by rfl, by rfl, by rfl⟩
  simp only [upsert_ticket, hfirst, hget]
  have hstable' : stableCollidesExcluding db i (upsertUpdateRow t r).stable_id = false :=
    hstable
  simp [hstable']

/-- A concrete ingestion payload; `conv` is the conversation id. -/
def sampleRecord (conv : Option String) : TicketRecord :=
  { id := none
    conv_id := conv
    thread_key := "re teams"
    entry_id := none
    first_received_utc := ⟨1, 36000⟩
    sender := "a@example.com"
    subject := "s"
    body := some "b"
    first_forward_utc := none
    first_forward_to := none
    first_reply_utc := none
    first_reply_body := none
    responsible := none
    status := "assigned"
    last_status_utc := ⟨1, 36000⟩
    days_without_update := 0
    overdue := false
    not_interesting := false
    customer_email := none
    is_repeat := false
    repeat_hint := none
    recommended_answer := some ""
    match_score := none
    topic := none
    last_reminder_utc := none
    priority := none
    stable_id := none
    last_updated_at := some ⟨1, 36000⟩
    last_updated_by := some "ingest"
    data_source := some "outlook"
    comment := none
    row_version := 1 }

/-- The store after first ingesting `sampleRecord conv` into an empty
store. -/
def sampleStored (conv : Option String) : Ticket :=
  newTicketRow [] (sampleRecord conv)

/-- Witness for C1: re-upserting the identical payload with the non-NULL
conversation id `c1` updates the single stored row in place. -/
theorem c1_upsert_existing_pair_updates_in_place_witness :
    upsert_ticket [sampleStored (some "c1")] (sampleRecord (some "c1"))
      = some ([sampleStored (some "c1")].set 0
          (upsertUpdateRow (sampleStored (some "c1")) (sampleRecord (some "c1")))) :=
  (c1_upsert_existing_pair_updates_in_place
    [sampleStored (some "c1")] (sampleRecord (some "c1")) 0
    (sampleStored (some "c1")) (by decide) (by decide) (by decide)).1

/-- Counterexample to C1 as stated: with a NULL `conv_id`, the stored
(conv_id, thread_key) pair never conflicts in SQLite, so re-upserting the
identical payload inserts a second row — the ticket count changes from 1
to 2 and the stored `row_version` stays 1 instead of being incremented. -/
theorem c1_upsert_null_conv_duplicates :
    (upsert_ticket [sampleStored none] (sampleRecord none)).map List.length
        = some 2 ∧
    (upsert_ticket [sampleStored none] (sampleRecord none)).map
        (List.map Ticket.row_version) = some [1, 1] := by
  decide

/-- C5: logging an event with a non-null external-message-id not yet in the
log inserts exactly one row; replaying any insertion with that same id (any
number of times) is a no-op, so the events table never holds two rows with
the same non-null `item_entry_id`. -/
theorem c5_log_event_idempotent (evs : List EventRow) (tid : Int) (et : String)
    (sb sa : Option String) (src : String) (now : PyDateTime)
    (raw : Option String) (s : String)
    (hfresh : eventCountWithId evs s = 0) :
    eventCountWithId (log_event evs tid et sb sa src now raw (some s)) s = 1 ∧
    (∀ tid2 et2 sb2 sa2 src2 now2 raw2,
      log_event (log_event evs tid et sb sa src now raw (some s))
          tid2 et2 sb2 sa2 src2 now2 raw2 (some s)
        = log_event evs tid et sb sa src now raw (some s)) := by
  have hnone : ∀ x ∈ evs, ¬ (x.item_entry_id == some s) = true := by
    intro x hx hxid
    have : (evs.filter (fun x => x.item_entry_id == some s)).length ≠ 0 := by
      have : x ∈ evs.filter (fun x => x.item_entry_id == some s) :=
        List.mem_filter.mpr ⟨hx, hxid⟩
      exact List.ne_nil_of_mem this |> fun h => by
        simpa [List.length_eq_zero] using h
    exact this hfresh
  have hany : evs.any (fun x => x.item_entry_id == some s) = false := by
    rw [List.any_eq_false]; exact hnone
  constructor
  · simp only [log_event, hany, if_false, eventCountWithId, List.filter_append]
    have : evs.filter (fun x => x.item_entry_id == some s) = [] := by
      rw [List.filter_eq_nil_iff]; exact hnone
    simp [this]
  · intro tid2 et2 sb2 sa2 src2 now2 raw2
    have hmem : (log_event evs tid et sb sa src now raw (some s)).any
        (fun x => x.item_entry_id == some s) = true := by
      simp [log_event, hany, List.any_append]
    simp only [log_event] at hmem ⊢
    rw [if_pos hmem]

/-- Witness for C5: replaying `log_event` with id `x1` on an empty log. -/
theorem c5_log_event_idempotent_witness :
    eventCountWithId
      (log_event [] 1 "mail_response" none (some "resolved") "mail" ⟨1, 0⟩ none
        (some "x1")) "x1" = 1 :=
  (c5_log_event_idempotent [] 1 "mail_response" none (some "resolved") "mail"
    ⟨1, 0⟩ none "x1" (by decide)).1

/-! ## Reminders (`core/sla.py`, `mark_reminder_sent`) -/

/-- `mark_reminder_sent`: `UPDATE tickets SET
last_reminder_utc=datetime('now'), row_version=row_version+1 WHERE id=?`.
`now` stands for the SQL `datetime('now')`. -/
def mark_reminder_sent (db : List Ticket) (ticket_id : Int) (now : PyDateTime) :
    List Ticket :=
  db.map (fun t =>
    if t.id == ticket_id then
      { t with last_reminder_utc := some now, row_version := t.row_version + 1 }
    else t)

/-- C9: `mark_reminder_sent` touches only `last_reminder_utc` and
`row_version` of the addressed ticket (the last-reminder timestamp is set
and `row_version` is incremented by 1); every other field — in particular
`status` — and every other row is unchanged. -/
theorem c9_mark_reminder_frame (db : List Ticket) (tid : Int) (now : PyDateTime)
    (i : Nat) (t : Ticket) (hget : db.get? i = some t) :
    ∃ t', (mark_reminder_sent db tid now).get? i = some t' ∧
      t'.id = t.id ∧ t'.stable_id = t.stable_id ∧ t'.conv_id = t.conv_id ∧
      t'.thread_key = t.thread_key ∧ t'.entry_id = t.entry_id ∧
      t'.first_received_utc = t.first_received_utc ∧ t'.sender = t.sender ∧
      t'.subject = t.subject ∧ t'.body = t.body ∧
      t'.first_forward_utc = t.first_forward_utc ∧
      t'.first_forward_to = t.first_forward_to ∧
      t'.first_reply_utc = t.first_reply_utc ∧
      t'.first_reply_body = t.first_reply_body ∧
      t'.responsible = t.responsible ∧
      t'.status = t.status ∧
      t'.last_status_utc = t.last_status_utc ∧
      t'.days_without_update = t.days_without_update ∧
      t'.overdue = t.overdue ∧ t'.not_interesting = t.not_interesting ∧
      t'.customer_email = t.customer_email ∧ t'.is_repeat = t.is_repeat ∧
      t'.repeat_hint = t.repeat_hint ∧
      t'.recommended_answer = t.recommended_answer ∧
      t'.match_score = t.match_score ∧ t'.topic = t.topic ∧
      t'.priority = t.priority ∧ t'.last_updated_at = t.last_updated_at ∧
      t'.last_updated_by = t.last_updated_by ∧
      t'.data_source = t.data_source ∧ t'.comment = t.comment ∧
      (t.id = tid →
        t'.row_version = t.row_version + 1 ∧ t'.last_reminder_utc = some now) ∧
      (t.id ≠ tid → t' = t) := by
  refine ⟨if t.id == tid then
      { t with last_reminder_utc := some now, row_version := t.row_version + 1 }
    else t, ?_, ?_⟩
  · rw [mark_reminder_sent, List.get?_map, hget]; rfl
  · by_cases h : t.id = tid
    · simp [h]
    · simp [h]

/-- Witness for C9: marking ticket 1 in a one-row store. -/
theorem c9_mark_reminder_frame_witness :
    ∃ t', (mark_reminder_sent [sampleStored (some "c1")] 1 ⟨2, 0⟩).get? 0
        = some t' ∧
      t'.id = (sampleStored (some "c1")).id ∧
      t'.stable_id = (sampleStored (some "c1")).stable_id ∧
      t'.conv_id = (sampleStored (some "c1")).conv_id ∧
      t'.thread_key = (sampleStored (some "c1")).thread_key ∧
      t'.entry_id = (sampleStored (some "c1")).entry_id ∧
      t'.first_received_utc = (sampleStored (some "c1")).first_received_utc ∧
      t'.sender = (sampleStored (some "c1")).sender ∧
      t'.subject = (sampleStored (some "c1")).subject ∧
      t'.body = (sampleStored (some "c1")).body ∧
      t'.first_forward_utc = (sampleStored (some "c1")).first_forward_utc ∧
      t'.first_forward_to = (sampleStored (some "c1")).first_forward_to ∧
      t'.first_reply_utc = (sampleStored (some "c1")).first_reply_utc ∧
      t'.first_reply_body = (sampleStored (some "c1")).first_reply_body ∧
      t'.responsible = (sampleStored (some "c1")).responsible ∧
      t'.status = (sampleStored (some "c1")).status ∧
      t'.last_status_utc = (sampleStored (some "c1")).last_status_utc ∧
      t'.days_without_update = (sampleStored (some "c1")).days_without_update ∧
      t'.overdue = (sampleStored (some "c1")).overdue ∧
      t'.not_interesting = (sampleStored (some "c1")).not_interesting ∧
      t'.customer_email = (sampleStored (some "c1")).customer_email ∧
      t'.is_repeat = (sampleStored (some "c1")).is_repeat ∧
      t'.repeat_hint = (sampleStored (some "c1")).repeat_hint ∧
      t'.recommended_answer = (sampleStored (some "c1")).recommended_answer ∧
      t'.match_score = (sampleStored (some "c1")).match_score ∧
      t'.topic = (sampleStored (some "c1")).topic ∧
      t'.priority = (sampleStored (some "c1")).priority ∧
      t'.last_updated_at = (sampleStored (some "c1")).last_updated_at ∧
      t'.last_updated_by = (sampleStored (some "c1")).last_updated_by ∧
      t'.data_source = (sampleStored (some "c1")).data_source ∧
      t'.comment = (sampleStored (some "c1")).comment ∧
      ((sampleStored (some "c1")).id = 1 →
        t'.row_version = (sampleStored (some "c1")).row_version + 1 ∧
        t'.last_reminder_utc = some ⟨2, 0⟩) ∧
      ((sampleStored (some "c1")).id ≠ 1 → t' = sampleStored (some "c1")) :=
  c9_mark_reminder_frame [sampleStored (some "c1")] 1 ⟨2, 0⟩ 0
    (sampleStored (some "c1")) (by decide)

/-! ## Sender filter (`core/utils.py`) -/

/-- Does `hay` start with `needle` (character-wise)? -/
def charsHasPre : List Char → List Char → Bool
  | [], _ => true
  | _ :: _, [] => false
  | c :: cs, d :: ds => c == d && charsHasPre cs ds

/-- Python `needle in hay` on strings (substring containment). -/
def charsContains (needle : List Char) : List Char → Bool
  | [] => charsHasPre needle []
  | c :: rest => charsHasPre needle (c :: rest) || charsContains needle rest

/-- Python `hay.__contains__(needle)` / `needle in hay`. -/
def strContains (hay needle : String) : Bool :=
  charsContains needle.data hay.data

/-- Python `s.startswith(p)`. -/
def strStarts (s p : String) : Bool :=
  charsHasPre p.data s.data

/-- Python `s.endswith(p)`. -/
def strEnds (s p : String) : Bool :=
  charsHasPre p.data.reverse s.data.reverse

/-- The sender-filter slice of `AppConfig`: `sender_filter` is a plain
string (legacy single value), `sender_filter_mode` a plain string,
`sender_filter_value` optional. -/
structure SenderFilterCfg where
  sender_filter : String
  sender_filter_mode : String
  sender_filter_value : Option String
deriving DecidableEq

/-- The Python truthiness chain
`cfg.sender_filter_value or cfg.sender_filter or ""`: first the optional
explicit value (when non-None and non-empty), else the legacy
`sender_filter` string (`x or ""` is `x` for a string `x`). -/
def senderFilterRawValue (cfg : SenderFilterCfg) : String :=
  match cfg.sender_filter_value with
  | some v => if v ≠ "" then v else cfg.sender_filter
  | none => cfg.sender_filter

/-- `_normalize_sender_filter`: lower+strip the mode (defaulting to
`off` when empty) and the value; in `domain` mode a leading `@` is
dropped from the value. -/
def normalize_sender_filter (cfg : SenderFilterCfg) : String × String :=
  let mode0 := pyStrip (pyLowerStr cfg.sender_filter_mode)
  let mode := if mode0 = "" then "off" else mode0
  let value0 := pyStrip (pyLowerStr (senderFilterRawValue cfg))
  let value :=
    if mode = "domain" ∧ strStarts value0 "@" then (value0.data.drop 1).asString
    else value0
  (mode, value)

/-- `passes_sender_filter`: apply sender filter modes
off|contains|equals|domain. -/
def passes_sender_filter (sender : String) (cfg : SenderFilterCfg) : Bool :=
  let sender_l := pyLowerStr sender
  let mv := normalize_sender_filter cfg
  let mode := mv.1
  let value := mv.2
  if mode = "off" ∨ value = "" then true
  else if mode = "contains" then strContains sender_l value
  else if mode = "equals" then sender_l == value
  else if mode = "domain" then
    strEnds sender_l ("@" ++ value) || strEnds sender_l ("." ++ value)
  else true

/-- C10: whenever the configured filter value is empty after trimming, the
sender filter accepts every sender in every mode (`contains`, `equals`,
`domain`, or anything else), not only in mode `off`. -/
theorem c10_empty_filter_value_accepts_all (sender : String)
    (cfg : SenderFilterCfg)
    (h : pyStrip (pyLowerStr (senderFilterRawValue cfg)) = "") :
    passes_sender_filter sender cfg = true := by
  simp only [passes_sender_filter, normalize_sender_filter, h]
  have hns : strStarts "" "@" = false := by decide
  simp [hns]

/-- Witness for C10: an all-whitespace filter value in mode `domain`
accepts an arbitrary sender. -/
theorem c10_empty_filter_value_accepts_all_witness :
    passes_sender_filter "user@otherexample.com"
      ⟨"support@ru.naos.com", "domain", some "   "⟩ = true :=
  c10_empty_filter_value_accepts_all "user@otherexample.com"
    ⟨"support@ru.naos.com", "domain", some "   "⟩ (by decide)

/-! ## Spreadsheet sync (`core/excel.py`, `sync_from_excel`) -/

/-- One spreadsheet row as read by `sync_from_excel`: `ticket_id` is the
result of `int(row["ticket_id"])` (`none` models the ValueError → `continue`
path), `row_version` the numeric row-version token, the `_raw` fields the
`str(...)` cell contents before `.strip()`, and `updated_at` the
`datetime.fromisoformat` result of the last-updated cell (`none` when the
cell is missing or unparseable). -/
structure ExcelRow where
  ticket_id : Option Int
  row_version : Int
  status_raw : String
  responsible_raw : String
  priority_raw : String
  comment_raw : String
  updated_at : Option PyDateTime
deriving DecidableEq

/-- One entry of the `conflict_rows` list: the ticket, the conflicting
field (the dict's `поле` entry — `last_updated_at` or `row_version`) and
the resolution taken (the spreadsheet/store value payloads of the dict are
not needed by any claim and are omitted). -/
structure ConflictRow where
  ticket_id : Int
  field : String
  resolution : String
deriving DecidableEq

/-- The evolving state of one `sync_from_excel` run: the `tickets` table,
the `events` table, the three counters and the conflict detail list. -/
structure SyncState where
  tickets : List Ticket
  events : List EventRow
  updated : Nat
  conflicts : Nat
  missing : Nat
  conflict_rows : List ConflictRow
deriving DecidableEq

/-- `db_updated_dt and excel_updated_dt and db_updated_dt >
excel_updated_dt`: both timestamps parsed and the store's strictly later. -/
def dbNewerThanExcel : Option PyDateTime → Option PyDateTime → Bool
  | some d, some e => e.toSec < d.toSec
  | _, _ => false

/-- The `UPDATE tickets SET .. WHERE id=? AND row_version=?` applied in the
no-conflict branch: status, responsible/priority/comment (empty string →
NULL, Python `x or None`), the overdue flag cleared when the new status is
terminal (`CASE WHEN ? IN ('resolved','table','in_table',
'not_interesting')`), `row_version` incremented, both timestamps set to
`now`, actor/source set to `excel`. -/
def applyExcelUpdate (db : List Ticket) (tid rv : Int)
    (status responsible priority comment : String) (now : PyDateTime) :
    List Ticket :=
  db.map (fun t =>
    if t.id == tid && t.row_version == rv then
      { t with
        status := status
        responsible := if responsible ≠ "" then some responsible else none
        priority := if priority ≠ "" then some priority else none
        comment := if comment ≠ "" then some comment else none
        overdue :=
          if [STATUS_RESOLVED, STATUS_TABLE, STATUS_IN_TABLE,
              STATUS_NOT_INTERESTING].contains status then 0
          else t.overdue
        row_version := t.row_version + 1
        last_status_utc := now
        last_updated_at := some now
        last_updated_by := some "excel"
        data_source := some "excel" }
    else t)

/-- The body of the `for _, row in df.iterrows()` loop of
`sync_from_excel` for one spreadsheet row.  The source checks, in this
order: non-numeric ticket id → skip; no store row → `missing`; store
timestamp newer → `last_updated_at` conflict; row-version token differs →
`row_version` conflict; else apply the update.  `now` stands for the SQL
`datetime('now')`. -/
def sync_row (now : PyDateTime) (st : SyncState) (row : ExcelRow) : SyncState :=
  match row.ticket_id with
  | none => st
  | some tid =>
    let status_display := pyStrip row.status_raw
    let status :=
      match status_text_to_code status_display with
      | some c => if c ≠ "" then c else status_display
      | none => status_display
    let responsible := pyStrip row.responsible_raw
    let priority := pyStrip row.priority_raw
    let comment := pyStrip row.comment_raw
    match st.tickets.find? (fun u => u.id == tid) with
    | none => { st with missing := st.missing + 1 }
    | some t =>
      if dbNewerThanExcel t.last_updated_at row.updated_at then
        { st with
          conflicts := st.conflicts + 1
          conflict_rows := st.conflict_rows ++
            [⟨tid, "last_updated_at", "skip (db newer)"⟩]
          events := log_event st.events tid "excel_conflict" none (some status)
            "excel" now (some "db newer") none }
      else if t.row_version ≠ row.row_version then
        { st with
          conflicts := st.conflicts + 1
          conflict_rows := st.conflict_rows ++ [⟨tid, "row_version", "skip"⟩]
          events := log_event st.events tid "excel_conflict" none (some status)
            "excel" now (some "row_version mismatch") none }
      else
        { st with
          tickets := applyExcelUpdate st.tickets tid row.row_version status
            responsible priority comment now
          events := log_event st.events tid "excel_sync" none (some status)
            "excel" now none none
          updated := st.updated + 1 }

/-- `sync_from_excel` over the rows of the ticket sheet: fold the per-row
body over the sheet, starting from the connected store with all counters
at zero. -/
def sync_from_excel (now : PyDateTime) (db : List Ticket) (events : List EventRow)
    (rows : List ExcelRow) : SyncState :=
  rows.foldl (sync_row now) ⟨db, events, 0, 0, 0, []⟩

/-- C2: a spreadsheet row carrying a numeric ticket identity that exists in
the store and a row-version token different from the store's current
`row_version` is counted as a conflict (not as updated, not as missing) and
the `tickets` table is left completely unmodified.  Stated for the per-row
body `sync_row` at an arbitrary intermediate state, which is how
`sync_from_excel` processes every sheet row. -/
theorem c2_version_mismatch_conflict_store_untouched (now : PyDateTime)
    (st : SyncState) (row : ExcelRow) (tid : Int) (t : Ticket)
    (hid : row.ticket_id = some tid)
    (hfind : st.tickets.find? (fun u => u.id == tid) = some t)
    (hver : t.row_version ≠ row.row_version) :
    (sync_row now st row).tickets = st.tickets ∧
    (sync_row now st row).conflicts = st.conflicts + 1 ∧
    (sync_row now st row).updated = st.updated ∧
    (sync_row now st row).missing = st.missing := by
  simp only [sync_row, hid, hfind]
  by_cases hdb : dbNewerThanExcel t.last_updated_at row.updated_at
  · simp [hdb]
  · simp [hdb, hver]

/-- Witness data for C2/C3: a one-ticket store whose row has id 1,
row_version 1 and a stored last-update timestamp. -/
def syncStoreTicket : Ticket :=
  { sampleStored (some "c1") with last_updated_at := some ⟨5, 0⟩ }

/-- Witness for C2: a sheet row with a stale row-version token (2 vs the
store's 1) and no last-updated cell is counted as a conflict and the store
is untouched. -/
theorem c2_version_mismatch_conflict_store_untouched_witness :
    (sync_row ⟨6, 0⟩ ⟨[syncStoreTicket], [], 0, 0, 0, []⟩
        ⟨some 1, 2, "Закрыто", "", "", "", none⟩).tickets = [syncStoreTicket] ∧
    (sync_row ⟨6, 0⟩ ⟨[syncStoreTicket], [], 0, 0, 0, []⟩
        ⟨some 1, 2, "Закрыто", "", "", "", none⟩).conflicts = 0 + 1 ∧
    (sync_row ⟨6, 0⟩ ⟨[syncStoreTicket], [], 0, 0, 0, []⟩
        ⟨some 1, 2, "Закрыто", "", "", "", none⟩).updated = 0 ∧
    (sync_row ⟨6, 0⟩ ⟨[syncStoreTicket], [], 0, 0, 0, []⟩
        ⟨some 1, 2, "Закрыто", "", "", "", none⟩).missing = 0 :=
  c2_version_mismatch_conflict_store_untouched ⟨6, 0⟩
    ⟨[syncStoreTicket], [], 0, 0, 0, []⟩
    ⟨some 1, 2, "Закрыто", "", "", "", none⟩ 1 syncStoreTicket
    (by decide) (by decide) (by decide)

/-- Counterexample to C3 as stated: a sheet row whose version token (2)
differs from the store's `row_version` (1) while the store's last-updated
timestamp is newer than the row's is reported as a `last_updated_at`
("store is newer") conflict, not as a `row_version` conflict — the
timestamp comparison runs first in `sync_from_excel`. -/
theorem c3_version_mismatch_reported_as_store_newer :
    syncStoreTicket.row_version ≠ 2 ∧
    (sync_row ⟨6, 0⟩ ⟨[syncStoreTicket], [], 0, 0, 0, []⟩
        ⟨some 1, 2, "Закрыто", "", "", "", some ⟨3, 0⟩⟩).conflict_rows
      = [⟨1, "last_updated_at", "skip (db newer)"⟩] ∧
    (sync_row ⟨6, 0⟩ ⟨[syncStoreTicket], [], 0, 0, 0, []⟩
        ⟨some 1, 2, "Закрыто", "", "", "", some ⟨3, 0⟩⟩).conflict_rows.map
        ConflictRow.field ≠ ["row_version"] := by
  have hdb : dbNewerThanExcel syncStoreTicket.last_updated_at (some ⟨3, 0⟩) = true := by
    show dbNewerThanExcel (some ⟨5, 0⟩) (some ⟨3, 0⟩) = true
    simp only [dbNewerThanExcel, decide_eq_true_eq, PyDateTime.toSec]
    norm_num
  have hfind : [syncStoreTicket].find? (fun u => u.id == 1) = some syncStoreTicket := by
    decide
  have hstep : (sync_row ⟨6, 0⟩ ⟨[syncStoreTicket], [], 0, 0, 0, []⟩
      ⟨some 1, 2, "Закрыто", "", "", "", some ⟨3, 0⟩⟩).conflict_rows
      = [⟨1, "last_updated_at", "skip (db newer)"⟩] := by
    simp only [sync_row, hfind, hdb, if_true, List.nil_append]
  exact ⟨by decide, hstep, by rw [hstep]; decide⟩

/-- C3 (amended): `sync_from_excel` performs the store-is-newer timestamp
comparison first and the row-version comparison only for rows that pass
it.  A row whose version token differs from the store is counted as a
conflict and skipped either way, but it is reported as a `row_version`
conflict only when the store-is-newer condition does not hold; when the
store's last-updated timestamp is later than the row's, it is reported as
a `last_updated_at` conflict instead. -/
theorem c3_store_newer_check_runs_first (now : PyDateTime) (st : SyncState)
    (row : ExcelRow) (tid : Int) (t : Ticket)
    (hid : row.ticket_id = some tid)
    (hfind : st.tickets.find? (fun u => u.id == tid) = some t)
    (hver : t.row_version ≠ row.row_version) :
    (sync_row now st row).tickets = st.tickets ∧
    (sync_row now st row).conflicts = st.conflicts + 1 ∧
    (sync_row now st row).conflict_rows = st.conflict_rows ++
      [if dbNewerThanExcel t.last_updated_at row.updated_at then
          ⟨tid, "last_updated_at", "skip (db newer)"⟩
        else ⟨tid, "row_version", "skip"⟩] := by
  simp only [sync_row, hid, hfind]
  by_cases hdb : dbNewerThanExcel t.last_updated_at row.updated_at
  · simp [hdb]
  · simp [hdb, hver]

/-- Witness for C3 (amended): the same stale row as the counterexample;
the reported conflict field is selected by the store-is-newer test. -/
theorem c3_store_newer_check_runs_first_witness :
    (sync_row ⟨6, 0⟩ ⟨[syncStoreTicket], [], 0, 0, 0, []⟩
        ⟨some 1, 2, "Закрыто", "", "", "", some ⟨3, 0⟩⟩).tickets
      = [syncStoreTicket] ∧
    (sync_row ⟨6, 0⟩ ⟨[syncStoreTicket], [], 0, 0, 0, []⟩
        ⟨some 1, 2, "Закрыто", "", "", "", some ⟨3, 0⟩⟩).conflicts = 0 + 1 ∧
    (sync_row ⟨6, 0⟩ ⟨[syncStoreTicket], [], 0, 0, 0, []⟩
        ⟨some 1, 2, "Закрыто", "", "", "", some ⟨3, 0⟩⟩).conflict_rows = [] ++
      [if dbNewerThanExcel syncStoreTicket.last_updated_at (some ⟨3, 0⟩) then
          ⟨1, "last_updated_at", "skip (db newer)"⟩
        else ⟨1, "row_version", "skip"⟩] :=
  c3_store_newer_check_runs_first ⟨6, 0⟩ ⟨[syncStoreTicket], [], 0, 0, 0, []⟩
    ⟨some 1, 2, "Закрыто", "", "", "", some ⟨3, 0⟩⟩ 1 syncStoreTicket
    (by decide) (by decide) (by decide)

/-! ## SLA recalculation (`core/sla.py`, `recalc_open`) -/

/-- One priority's SLA thresholds (`cfg.sla_by_priority[p]`, a dict that
may lack either key). -/
structure SlaThresholds where
  first_response_hours : Option Rat
  resolution_hours : Option Rat
deriving DecidableEq

/-- The configuration slice consumed by `recalc_open`. -/
structure RecalcCfg where
  sla_by_priority : List (String × SlaThresholds)
  overdue_days : Int
  business_hours_start : Int
  business_hours_end : Int
  holidays : List Int
deriving DecidableEq

/-- `cfg.sla_by_priority.get(k)`. -/
def slaLookup (m : List (String × SlaThresholds)) (k : String) :
    Option SlaThresholds :=
  (m.find? (fun p => p.1 == k)).map (fun p => p.2)

/-- `normalize_status_code(r["status"]) or r["status"]` — the stored
status, normalized, falling back to the raw value when the normalization
is empty. -/
def recalcCurrentStatus (t : Ticket) : String :=
  let c0 := normalize_status_code t.status
  if c0 = "" then t.status else c0

/-- `r["priority"] or "p3"`. -/
def recalcPriority (t : Ticket) : String :=
  match t.priority with
  | some p => if p ≠ "" then p else "p3"
  | none => "p3"

/-- `cfg.sla_by_priority.get(priority, cfg.sla_by_priority.get("p3", dict()))`. -/
def recalcSlaCfg (cfg : RecalcCfg) (t : Ticket) : SlaThresholds :=
  (slaLookup cfg.sla_by_priority (recalcPriority t)).getD
    ((slaLookup cfg.sla_by_priority "p3").getD ⟨none, none⟩)

/-- `float(sla_cfg.get("first_response_hours", cfg.overdue_days * 24))`. -/
def recalcFHours (cfg : RecalcCfg) (t : Ticket) : Rat :=
  (recalcSlaCfg cfg t).first_response_hours.getD ((cfg.overdue_days : Rat) * 24)

/-- `float(sla_cfg.get("resolution_hours", cfg.overdue_days * 24))`. -/
def recalcRHours (cfg : RecalcCfg) (t : Ticket) : Rat :=
  (recalcSlaCfg cfg t).resolution_hours.getD ((cfg.overdue_days : Rat) * 24)

/-- Elapsed business hours since receipt
(`business_hours_between(recvd, now, ..)`). -/
def recalcBusHours (cfg : RecalcCfg) (now : PyDateTime) (t : Ticket) : Rat :=
  business_hours_between t.first_received_utc now cfg.business_hours_start
    cfg.business_hours_end cfg.holidays

/-- The overdue condition of `recalc_open`: no first reply and the
first-response threshold breached, or the resolution threshold breached. -/
def recalcOverdueCond (cfg : RecalcCfg) (now : PyDateTime) (t : Ticket) : Bool :=
  if t.first_reply_utc.isNone ∧ recalcFHours cfg t ≤ recalcBusHours cfg now t then
    true
  else if recalcRHours cfg t ≤ recalcBusHours cfg now t then true
  else false

/-- The per-ticket body of the `recalc_open` sweep: `waiting_customer`
tickets only get their days refreshed and the overdue flag cleared; for
the rest the overdue flag is recomputed and the two-tier status rule is
applied, stamping `last_status_utc` with `now`. -/
def recalc_row (cfg : RecalcCfg) (now : PyDateTime) (t : Ticket) : Ticket :=
  let cur := recalcCurrentStatus t
  let days := max 0 (now.day - t.last_status_utc.day)
  if cur = STATUS_WAITING_CUSTOMER then
    { t with days_without_update := days, overdue := 0 }
  else
    let od := recalcOverdueCond cfg now t
    let status1 :=
      if od = true ∧
          ¬(cur = STATUS_OVERDUE ∨ cur = STATUS_RESPONDED ∨ cur = STATUS_ASSIGNED)
      then STATUS_OVERDUE else cur
    let status2 :=
      if (status1 = STATUS_RESPONDED ∨ status1 = STATUS_ASSIGNED) ∧
          recalcRHours cfg t ≤ recalcBusHours cfg now t
      then STATUS_OVERDUE else status1
    { t with
      days_without_update := days
      overdue := if od then 1 else 0
      status := status2
      last_status_utc := now }

/-- The sweep's SELECT filter: `status NOT IN (resolved, not_interesting,
table, in_table)`. -/
def sweptTicket (t : Ticket) : Bool :=
  !([STATUS_RESOLVED, STATUS_NOT_INTERESTING, STATUS_TABLE,
     STATUS_IN_TABLE].contains t.status)

/-- `recalc_open`: apply the per-ticket body to every swept ticket and
report the number of tickets touched. -/
def recalc_open (cfg : RecalcCfg) (now : PyDateTime) (db : List Ticket) :
    List Ticket × Nat :=
  (db.map (fun t => if sweptTicket t then recalc_row cfg now t else t),
   (db.filter sweptTicket).length)

/-- C4 (amended): in the `recalc_open` sweep, for every swept ticket whose
current (normalized) status is not `waiting_customer`: if the overdue
condition holds and the status is none of overdue/responded/assigned, the
stored status is set to `overdue`; if the status is responded or assigned
and elapsed business hours reach the resolution threshold, the stored
status is set to `overdue`; and a responded/assigned ticket below the
resolution threshold keeps its status even when the first-response
threshold is breached.  (`waiting_customer` tickets are swept but exempt:
they keep their status, see the counterexample.) -/
theorem c4_recalc_two_tier_rule (cfg : RecalcCfg) (now : PyDateTime) (t : Ticket)
    (cur : String) (bus f r : Rat)
    (hsw : sweptTicket t = true)
    (hcur : recalcCurrentStatus t = cur)
    (hnw : cur ≠ STATUS_WAITING_CUSTOMER)
    (hbus : recalcBusHours cfg now t = bus)
    (hf : recalcFHours cfg t = f)
    (hr2 : recalcRHours cfg t = r) :
    (((t.first_reply_utc = none ∧ f ≤ bus) ∨ r ≤ bus) ∧
        ¬(cur = STATUS_OVERDUE ∨ cur = STATUS_RESPONDED ∨ cur = STATUS_ASSIGNED) →
      (recalc_row cfg now t).status = STATUS_OVERDUE) ∧
    ((cur = STATUS_RESPONDED ∨ cur = STATUS_ASSIGNED) ∧ r ≤ bus →
      (recalc_row cfg now t).status = STATUS_OVERDUE) ∧
    ((cur = STATUS_RESPONDED ∨ cur = STATUS_ASSIGNED) ∧ bus < r →
      (recalc_row cfg now t).status = cur) := by
  subst hcur hbus hf hr2
  have hod : recalcOverdueCond cfg now t = true ↔
      ((t.first_reply_utc = none ∧ recalcFHours cfg t ≤ recalcBusHours cfg now t) ∨
        recalcRHours cfg t ≤ recalcBusHours cfg now t) := by
    unfold recalcOverdueCond
    split_ifs with h1 h2
    · simp only [true_iff]
      rcases h1 with ⟨ha, hb⟩
      exact Or.inl ⟨Option.isNone_iff_eq_none.mp ha, hb⟩
    · simp only [true_iff]
      exact Or.inr h2
    · simp only [Bool.false_eq_true, false_iff]
      rintro (⟨ha, hb⟩ | hc)
      · exact h1 ⟨Option.isNone_iff_eq_none.mpr ha, hb⟩
      · exact h2 hc
  refine ⟨?_, ?_, ?_⟩ <;> intro h
  · have hodt : recalcOverdueCond cfg now t = true := hod.mpr h.1
    simp only [recalc_row, if_neg hnw]
    have hs1 : (if recalcOverdueCond cfg now t = true ∧
        ¬(recalcCurrentStatus t = STATUS_OVERDUE ∨
          recalcCurrentStatus t = STATUS_RESPONDED ∨
          recalcCurrentStatus t = STATUS_ASSIGNED)
        then STATUS_OVERDUE else recalcCurrentStatus t) = STATUS_OVERDUE :=
      if_pos ⟨hodt, h.2⟩
    rw [hs1, if_neg]
    rintro ⟨h', -⟩
    rcases h' with h' | h' <;> exact absurd h' (by decide)
  · simp only [recalc_row, if_neg hnw]
    have hs1 : (if recalcOverdueCond cfg now t = true ∧
        ¬(recalcCurrentStatus t = STATUS_OVERDUE ∨
          recalcCurrentStatus t = STATUS_RESPONDED ∨
          recalcCurrentStatus t = STATUS_ASSIGNED)
        then STATUS_OVERDUE else recalcCurrentStatus t) = recalcCurrentStatus t := by
      apply if_neg
      rintro ⟨-, hno⟩
      exact hno (Or.inr h.1)
    rw [hs1, if_pos ⟨h.1, h.2⟩]
  · simp only [recalc_row, if_neg hnw]
    have hs1 : (if recalcOverdueCond cfg now t = true ∧
        ¬(recalcCurrentStatus t = STATUS_OVERDUE ∨
          recalcCurrentStatus t = STATUS_RESPONDED ∨
          recalcCurrentStatus t = STATUS_ASSIGNED)
        then STATUS_OVERDUE else recalcCurrentStatus t) = recalcCurrentStatus t := by
      apply if_neg
      rintro ⟨-, hno⟩
      exact hno (Or.inr h.1)
    rw [hs1, if_neg]
    rintro ⟨-, hle⟩
    exact absurd hle (not_le.mpr h.2)

/-- A recalculation configuration with p3 thresholds of 4h first response
and 8h resolution, business hours 10-19, no holidays. -/
def c4cfg : RecalcCfg := ⟨[("p3", ⟨some 4, some 8⟩)], 2, 10, 19, []⟩

/-- A swept `waiting_customer` ticket received Monday 10:00 with no first
reply. -/
def c4waiting : Ticket :=
  { sampleStored (some "w1") with
      status := "waiting_customer"
      priority := some "p3" }

/-- A swept `responded` ticket received Monday 10:00 with a first reply. -/
def c4responded : Ticket :=
  { sampleStored (some "w2") with
      status := "responded"
      priority := some "p3"
      first_reply_utc := some ⟨1, 40000⟩ }

/-- Elapsed business hours of the waiting-customer example at Monday 19:00:
nine hours. -/
theorem busHoursWaitingExample : recalcBusHours c4cfg ⟨1, 68400⟩ c4waiting = 9 := by
  show business_hours_between ⟨1, 36000⟩ ⟨1, 68400⟩ 10 19 [] = 9
  rw [bh_single_day_formula 1 36000 68400 10 19 [] (by norm_num) (by norm_num)
    (by norm_num) (by decide) (by decide) (by norm_num) (by norm_num [min_def])]
  norm_num [min_def, max_def]

/-- Counterexample to C4 as stated: a swept `waiting_customer` ticket for
which the overdue condition holds (elapsed 9h ≥ 4h first-response, no
reply) and whose status is none of overdue/responded/assigned nevertheless
keeps status `waiting_customer` — the sweep exempts `waiting_customer`
before the overdue rules. -/
theorem c4_waiting_customer_not_forced_overdue :
    sweptTicket c4waiting = true ∧
    recalcOverdueCond c4cfg ⟨1, 68400⟩ c4waiting = true ∧
    ¬(recalcCurrentStatus c4waiting = STATUS_OVERDUE ∨
      recalcCurrentStatus c4waiting = STATUS_RESPONDED ∨
      recalcCurrentStatus c4waiting = STATUS_ASSIGNED) ∧
    (recalc_row c4cfg ⟨1, 68400⟩ c4waiting).status = STATUS_WAITING_CUSTOMER ∧
    (recalc_row c4cfg ⟨1, 68400⟩ c4waiting).status ≠ STATUS_OVERDUE := by
  have hf : recalcFHours c4cfg c4waiting = 4 := by decide
  have hcond : recalcOverdueCond c4cfg ⟨1, 68400⟩ c4waiting = true := by
    unfold recalcOverdueCond
    rw [if_pos ⟨by decide, by rw [hf, busHoursWaitingExample]; norm_num⟩]
  exact ⟨by decide, hcond, by decide, by decide, by decide⟩

/-- Elapsed business hours of the responded example at Monday 19:00. -/
theorem busHoursRespondedExample :
    recalcBusHours c4cfg ⟨1, 68400⟩ c4responded = 9 := by
  show business_hours_between ⟨1, 36000⟩ ⟨1, 68400⟩ 10 19 [] = 9
  rw [bh_single_day_formula 1 36000 68400 10 19 [] (by norm_num) (by norm_num)
    (by norm_num) (by decide) (by decide) (by norm_num) (by norm_num [min_def])]
  norm_num [min_def, max_def]

/-- Witness for C4 (amended): the responded example with 9h elapsed, 4h/8h
thresholds; the second tier fires (9 ≥ 8), forcing `overdue`. -/
theorem c4_recalc_two_tier_rule_witness :
    (((c4responded.first_reply_utc = none ∧ (4 : Rat) ≤ 9) ∨ (8 : Rat) ≤ 9) ∧
        ¬("responded" = STATUS_OVERDUE ∨ "responded" = STATUS_RESPONDED ∨
          "responded" = STATUS_ASSIGNED) →
      (recalc_row c4cfg ⟨1, 68400⟩ c4responded).status = STATUS_OVERDUE) ∧
    (("responded" = STATUS_RESPONDED ∨ "responded" = STATUS_ASSIGNED) ∧
        (8 : Rat) ≤ 9 →
      (recalc_row c4cfg ⟨1, 68400⟩ c4responded).status = STATUS_OVERDUE) ∧
    (("responded" = STATUS_RESPONDED ∨ "responded" = STATUS_ASSIGNED) ∧
        (9 : Rat) < 8 →
      (recalc_row c4cfg ⟨1, 68400⟩ c4responded).status = "responded") :=
  c4_recalc_two_tier_rule c4cfg ⟨1, 68400⟩ c4responded "responded" 9 4 8
    (by decide) (by decide) (by decide) busHoursRespondedExample (by decide)
    (by decide)
